import Mathlib

/-!
Shallow embedding of the `tk-3de4` engine and its hook scripts
(`engine.py`, `hooks/tk-multi-workfiles2/scene_operation_tk-3de4.py`,
`hooks/tk-multi-publish2/basic/exportMel.py`), together with theorems
settling the specification claims about them.

External systems (the 3DEqualizer4 scripting API `tde4`, the sgtk
platform, Qt, and the filesystem) are modelled as explicit oracle
parameters; the repository's own control flow is translated statement
by statement.
-/

namespace SceneOp

/-- Outcome of the `QtGui.QMessageBox.question` prompt with the
Yes / No / Cancel buttons used by the scene-operation hook. -/
inductive Answer
  | yes
  | no
  | cancel
  deriving DecidableEq, Repr

/-- Observable side-effecting calls made by `SceneOperation.execute`:
`tde4.saveProject`, `tde4.loadProject`, `tde4.newProject` and
`os.makedirs`. -/
inductive Eff
  | saveProject (path : String)
  | loadProject (path : String)
  | newProject
  | makedirs (dir : String)
  deriving DecidableEq, Repr

/-- A Python return value of `SceneOperation.execute`: a string
(`current_path`), a boolean (`open`/`reset`/`prepare_new` outcomes) or
`None` (falling off the end of the function). -/
inductive PyVal
  | str (s : String)
  | bool (b : Bool)
  | noneVal
  deriving DecidableEq, Repr

/-- Environment of `SceneOperation.execute`: the host's project-dirty
flag `tde4.isProjectUpToDate()`, the stream of user answers to the
unsaved-changes prompt (one per time the dialog is shown), and the
filesystem / path oracles backing `os.path.exists` and
`os.path.dirname`. -/
structure SceneEnv where
  isProjectUpToDate : Bool
  answers : List Answer
  dirname : String → String
  pathExists : String → Bool

/-- The `while dirty==1:` prompt loop shared by the `open` and `reset`
branches of `SceneOperation.execute`.  Each iteration shows the
Yes/No/Cancel dialog and consumes one answer:
Cancel returns `False` from `execute` (modelled as `some (.bool false)`
in the second component), No breaks out of the loop, Yes calls
`tde4.saveProject(file_path)` and sets `dirty = 0` so the loop exits on
the next condition check.  `Option.none` as overall result means the
prompt was shown but the modelled answer stream was exhausted. -/
def promptLoop (filePath : String) : Nat → List Answer →
    Option (List Eff × Option PyVal)
  | dirty, answers =>
    if dirty == 1 then
      match answers with
      | [] => Option.none
      | a :: rest =>
        match a with
        | Answer.cancel => some ([], some (PyVal.bool false))
        | Answer.no => some ([], Option.none)
        | Answer.yes =>
          match promptLoop filePath 0 rest with
          | Option.none => Option.none
          | some (calls, r) => some (Eff.saveProject filePath :: calls, r)
    else
      some ([], Option.none)

/-- `SceneOperation.execute` from
`hooks/tk-multi-workfiles2/scene_operation_tk-3de4.py`, lines 53-117.
Returns the list of host/filesystem calls made, paired with the Python
return value; `Option.none` only when the modelled answer stream ran
out while the prompt loop needed one more answer. -/
def execute (env : SceneEnv) (operation filePath : String) :
    Option (List Eff × PyVal) :=
  if operation == "current_path" then
    some ([], PyVal.str filePath)
  else if operation == "open" then
    let dirty := if ! env.isProjectUpToDate then 1 else 0
    match promptLoop filePath dirty env.answers with
    | Option.none => Option.none
    | some (calls, some r) => some (calls, r)
    | some (calls, Option.none) =>
      some (calls ++ [Eff.loadProject filePath], PyVal.noneVal)
  else if operation == "save" then
    some ((if env.pathExists (env.dirname filePath) then []
           else [Eff.makedirs (env.dirname filePath)])
          ++ [Eff.saveProject filePath], PyVal.noneVal)
  else if operation == "save_as" then
    some ((if env.pathExists (env.dirname filePath) then []
           else [Eff.makedirs (env.dirname filePath)])
          ++ [Eff.saveProject filePath], PyVal.noneVal)
  else if operation == "prepare_new" then
    some ([Eff.newProject], PyVal.bool true)
  else if operation == "reset" then
    let dirty := if ! env.isProjectUpToDate then 1 else 0
    match promptLoop filePath dirty env.answers with
    | Option.none => Option.none
    | some (calls, some r) => some (calls, r)
    | some (calls, Option.none) =>
      some (calls ++ [Eff.newProject], PyVal.bool true)
  else
    some ([], PyVal.noneVal)

end SceneOp

namespace Engine

/-- A Python logging record, reduced to the one field
`TDE4Engine._emit_log_message` inspects: `record.levelno`. -/
structure LogRecord where
  levelno : Int
  deriving DecidableEq, Repr

/-- `logging.INFO` from the Python standard library. -/
def loggingINFO : Int := 20

/-- `TDE4Engine._emit_log_message` (`engine.py`, lines 141-172).
`globalDebug` is `sgtk.LogManager().global_debug`, `fmt` is the
supplied handler's `handler.format`, and `now` is the
`datetime.datetime.now().strftime(...)` timestamp string.  The result
is `some` of the printed line when the record is printed at all, and
`Option.none` when the `if log_debug or log_info_above` guard rejects
the record. -/
def emitLogMessage (globalDebug : Bool) (fmt : LogRecord → String)
    (now : String) (record : LogRecord) : Option String :=
  let log_debug := decide (record.levelno < loggingINFO) && globalDebug
  let log_info_above := decide (record.levelno ≥ loggingINFO)
  if log_debug || log_info_above then
    some (now ++ " " ++ fmt record)
  else
    Option.none

/-- Result of `TDE4Engine._cleanup_folders` / `destroy_engine`:
either the list of paths handed to `shutil.rmtree` (empty or a
singleton), or the `KeyError` raised by the `os.environ[...]` lookup. -/
inductive CleanupResult
  | ok (removed : List String)
  | keyError (key : String)
  deriving DecidableEq, Repr

/-- `TDE4Engine._cleanup_folders` (`engine.py`, lines 402-408):
`os.environ["TK_3DE4_MENU_DIR"]` (raising `KeyError` when the variable
is unset), then `shutil.rmtree` on that path when `os.path.isdir`
holds, else nothing.  `env` is `os.environ` and `isDir` is
`os.path.isdir`. -/
def cleanupFolders (env : String → Option String)
    (isDir : String → Bool) : CleanupResult :=
  match env "TK_3DE4_MENU_DIR" with
  | Option.none => CleanupResult.keyError "TK_3DE4_MENU_DIR"
  | some custom_scripts_dir_path =>
    if isDir custom_scripts_dir_path then
      CleanupResult.ok [custom_scripts_dir_path]
    else
      CleanupResult.ok []

/-- `TDE4Engine.destroy_engine` (`engine.py`, lines 119-125): a debug
log line followed by `self._cleanup_folders()`; the cleanup call is
its only effect beyond logging. -/
def destroyEngine (env : String → Option String)
    (isDir : String → Bool) : CleanupResult :=
  cleanupFolders env isDir

/-- Python exceptions that the `try` block of `host_info` can raise:
a failing `import tde4`, a raising `tde4.get3DEVersion()` call, or the
`AttributeError` from calling `.groups()` on the `None` that
`re.match` returns on a failed match. -/
inductive PyExn
  | importError
  | apiError
  | attributeError
  deriving DecidableEq, Repr

/-- Python's `\s` character class (the ASCII portion; the host version
strings involved are ASCII). -/
def isPySpace (c : Char) : Bool :=
  c == ' ' || c == '\t' || c == '\n' || c == '\r' ||
    c == '\x0b' || c == '\x0c'

/-- `re.match("^([^\s]+)\s+(.*)$", s)` and `.groups()`, as used by
`host_info`: a maximal nonempty run of non-whitespace (group 1), one
or more whitespace characters, then `(.*)$` — the remainder, which may
not contain a newline except as its final character (Python's `.`
does not match a newline and `$` also matches just before a trailing
newline).  Returns the two groups, or `Option.none` when the regex
does not match. -/
def matchVersion (s : String) : Option (String × String) :=
  let cs := s.data
  let p := cs.takeWhile (fun c => ! isPySpace c)
  let rest1 := cs.dropWhile (fun c => ! isPySpace c)
  let w := rest1.takeWhile isPySpace
  let r := rest1.dropWhile isPySpace
  if p.isEmpty || w.isEmpty then
    Option.none
  else
    let r2 := if r.getLast? == some '\n' then r.dropLast else r
    if r2.contains '\n' then Option.none
    else some (String.mk p, String.mk r2)

/-- The dictionary returned by `host_info`: it always holds exactly a
`"name"` and a `"version"` entry. -/
structure HostInfo where
  name : String
  version : String
  deriving DecidableEq, Repr

/-- The `try` block of `host_info`: `import tde4`, the
`tde4.get3DEVersion()` call (together modelled by `query`), then
`re.match(...).groups()`, which raises `AttributeError` when the match
failed. -/
def hostInfoTryBody (query : Except PyExn String) :
    Except PyExn (String × String) :=
  match query with
  | Except.error e => Except.error e
  | Except.ok s =>
    match matchVersion s with
    | Option.none => Except.error PyExn.attributeError
    | some nv => Except.ok nv

/-- `TDE4Engine.host_info` (`engine.py`, lines 30-51): initialise the
dictionary to the fallback, run the `try` block, and on any exception
keep the fallback (`except: pass`). -/
def host_info (query : Except PyExn String) : HostInfo :=
  let init : HostInfo := ⟨"3DEqualizer4", "unknown"⟩
  match hostInfoTryBody query with
  | Except.error _ => init
  | Except.ok (n, v) => { init with name := n, version := v }

end Engine

namespace Publish

/-- Python truthiness test `if not x:` for an optional string: `None`
and the empty string are falsy. -/
def pyFalsy : Option String → Bool
  | Option.none => true
  | some s => s.isEmpty

/-- The publish-item properties that `exportMel.py` reads or writes
(`item.properties["publish_template"]`, `item.properties["path"]`,
`item.properties["publish_dependencies"]`), plus the
`item.context_change_allowed` flag toggled by `accept`.  Template and
camera handles from the external platform are modelled as strings. -/
structure ItemProps where
  publish_template : Option String
  path : Option String
  publish_dependencies : Option (List String)
  context_change_allowed : Bool
  deriving DecidableEq, Repr

/-- The dictionary returned by `Tde4ExportMelPublishPlugin.accept`. -/
structure AcceptResult where
  accepted : Bool
  checked : Bool
  visible : Bool
  deriving DecidableEq, Repr

/-- Inputs that `accept` consults: the `"Publish Template"` setting's
value and the current session path (`tde4.getProjectPath()`), the
latter used only to decide whether to log a warning. -/
structure AcceptEnv where
  publishTemplateValue : Option String
  sessionPath : Option String

/-- `Tde4ExportMelPublishPlugin.item_filters`
(`hooks/tk-multi-publish2/basic/exportMel.py`, line 150). -/
def item_filters : List String := ["3de.session", "file.mel"]

/-- `Tde4ExportMelPublishPlugin.accept` (`exportMel.py`, lines
153-205): disable context change when a publish template is
configured, warn (log only) when the session has no path, then return
the constant acceptance dictionary. -/
def accept (env : AcceptEnv) (item : ItemProps) :
    ItemProps × AcceptResult :=
  let item :=
    if ! pyFalsy env.publishTemplateValue then
      { item with context_change_allowed := false }
    else item
  (item, { accepted := true, checked := true, visible := true })

/-- The exceptions `Tde4ExportMelPublishPlugin.validate` can raise
itself: the "session has not been saved" error, the "next version
already exists" error, and the `TypeError` that `os.path.exists(None)`
raises when `_get_next_version_info` stops returning a path inside the
bump loop. -/
inductive ValErr
  | notSaved
  | nextVersionExists (version : Nat)
  | typeError
  deriving DecidableEq, Repr

/-- The external calls `Tde4ExportMelPublishPlugin.validate` makes, as
oracles: `_session_path()`, `sgtk.util.ShotgunPath.normalize`, the
work-template check `work_template.validate(path)` (logging only),
`self._get_next_version_info(path, item)`, `os.path.exists`, the
`"Publish Template"` setting value, and
`publisher.engine.get_template_by_name`; `baseValidate` is the
`super(...).validate(settings, item)` call. -/
structure ValidateOracle where
  sessionPath : Option String
  normalize : String → String
  templateValidate : String → String → Bool
  nextVersionInfo : String → Option String × Nat
  pathExists : String → Bool
  publishTemplateValue : Option String
  getTemplateByName : Option String → Option String
  baseValidate : ItemProps → Bool

/-- The `while os.path.exists(next_version_path):` loop of `validate`
(`exportMel.py`, lines 277-279), with explicit fuel; `Option.none`
models running out of fuel (a diverging loop).  When
`_get_next_version_info` returns `None` as the next path, the next
`os.path.exists(None)` condition check raises `TypeError`, modelled as
`Except.error ()`; otherwise the loop ends with the final version
number. -/
def bumpLoop (pathExists : String → Bool)
    (nextVersionInfo : String → Option String × Nat) :
    Nat → String → Nat → Option (Except Unit Nat)
  | 0, _, _ => Option.none
  | Nat.succ fuel, next_version_path, _version =>
    if pathExists next_version_path then
      match nextVersionInfo next_version_path with
      | (some p, v) => bumpLoop pathExists nextVersionInfo fuel p v
      | (Option.none, _v) => some (Except.error ())
    else
      some (Except.ok _version)

/-- `Tde4ExportMelPublishPlugin.validate` (`exportMel.py`, lines
207-306).  Returns the final item properties together with either one
of `validate`'s own exceptions or the boolean result of the base-class
validation; `Option.none` models a diverging version-bump loop.  The
work-template branch and its logging have no observable effect beyond
log output and are therefore not reflected in the result. -/
def validate (o : ValidateOracle) (fuel : Nat) (item : ItemProps) :
    Option (ItemProps × Except ValErr Bool) :=
  if pyFalsy o.sessionPath then
    some (item, Except.error ValErr.notSaved)
  else
    let path := o.normalize (o.sessionPath.getD "")
    let next_version_path := (o.nextVersionInfo path).1
    let version := (o.nextVersionInfo path).2
    if ! pyFalsy next_version_path
        && o.pathExists (next_version_path.getD "") then
      match bumpLoop o.pathExists o.nextVersionInfo fuel
          (next_version_path.getD "") version with
      | Option.none => Option.none
      | some (Except.error _) =>
        some (item, Except.error ValErr.typeError)
      | some (Except.ok v) =>
        some (item, Except.error (ValErr.nextVersionExists v))
    else
      let item1 :=
        match o.getTemplateByName o.publishTemplateValue with
        | some t => { item with publish_template := some t }
        | Option.none => item
      let item2 := { item1 with path := some path }
      some (item2, Except.ok (o.baseValidate item2))

/-- An exception flowing through `publish` / `finalize`: either an
arbitrary error raised by an external call (`hostError`), or one of
the plugin's own `raise Exception("...")` statements (`generic`). -/
inductive PubErr
  | hostError (msg : String)
  | generic (msg : String)
  deriving DecidableEq, Repr

/-- The external calls `Tde4ExportMelPublishPlugin.publish` makes, as
oracles.  `sessionPathNorm` combines
`sgtk.util.ShotgunPath.normalize(_session_path())`; `saveSession`
is `_save_session(path)` (an `ensure_folder_exists` on the path's
directory); `exportMel` is the `_export_mel(path)` call. -/
structure PublishOracle where
  sessionPathNorm : Except PubErr String
  saveSession : String → Except PubErr Unit
  exportMel : String → Except PubErr Unit

/-- `Tde4ExportMelPublishPlugin.publish` (`exportMel.py`, lines
308-334).  Returns the updated item on success; exceptions from the
steps before the `try` propagate unchanged, while any exception from
`_export_mel` is replaced by
`Exception("Unable to export mel script")`. -/
def publish (o : PublishOracle) (item : ItemProps) :
    Except PubErr ItemProps :=
  match o.sessionPathNorm with
  | Except.error e => Except.error e
  | Except.ok path =>
    match o.saveSession path with
    | Except.error e => Except.error e
    | Except.ok _ =>
      let item := { item with
        path := some path,
        publish_dependencies := some [] }
      match o.exportMel path with
      | Except.error _ =>
        Except.error (PubErr.generic "Unable to export mel script")
      | Except.ok _ => Except.ok item

/-- The external calls `Tde4ExportMelPublishPlugin.finalize` makes, as
oracles: the normalized session path, `get_publish_name`,
`get_publish_version`, `get_SpecificTemplatePublishPath` (itself a
chain of platform calls), `_copyToMelPath(path, Mpublish_path)`, and
`sgtk.util.register_publish(...)`. -/
structure FinalizeOracle where
  sessionPathNorm : Except PubErr String
  publishName : Except PubErr String
  publishVersion : Except PubErr Nat
  specificTemplatePath : Except PubErr String
  copyToMelPath : String → String → Except PubErr Unit
  registerPublish : Except PubErr Unit

/-- `Tde4ExportMelPublishPlugin.finalize` (`exportMel.py`, lines
337-379).  Exceptions from the name/version/template steps propagate
unchanged; any exception from the copy step becomes
`Exception("Unable to export mel script")` and any exception from the
registration step becomes
`Exception("Unable to publish mel script")`. -/
def finalize (o : FinalizeOracle) (item : ItemProps) :
    Except PubErr ItemProps :=
  match o.sessionPathNorm with
  | Except.error e => Except.error e
  | Except.ok path =>
    let item := { item with path := some path }
    match o.publishName with
    | Except.error e => Except.error e
    | Except.ok _tname =>
      match o.publishVersion with
      | Except.error e => Except.error e
      | Except.ok _ver =>
        match o.specificTemplatePath with
        | Except.error e => Except.error e
        | Except.ok mpath =>
          match o.copyToMelPath path mpath with
          | Except.error _ =>
            Except.error (PubErr.generic "Unable to export mel script")
          | Except.ok _ =>
            match o.registerPublish with
            | Except.error _ =>
              Except.error (PubErr.generic "Unable to publish mel script")
            | Except.ok _ => Except.ok item

/-- Host state consulted by `_export_mel`: the `tde4` point-group and
camera queries.  Handles are modelled as strings;
`selectedCameraList` is `tde4.getCameraList(1)`. -/
structure ExportEnv where
  pGroupList : List String
  pGroupType : String → String
  currentCamera : String
  cameraFrameOffset : String → Int
  cameraList : List String
  selectedCameraList : List String
  cameraType : String → String

/-- The positional argument tuple `_export_mel` passes to the external
`_maya_export_mel_file`.  The Python `float` parameters are modelled
as rationals; the only float computations performed are
`float(str(offset))` for an integer frame offset and a subtraction of
1, both exact at these magnitudes. -/
structure MelExportArgs where
  path : String
  campg : Option String
  cameraList : List String
  modelSelection : Nat
  overscanWPc : Rat
  overscanHPc : Rat
  exportMaterial : Nat
  unitScaleFactor : Rat
  frame0 : Rat
  hideRef : Nat
  deriving DecidableEq, Repr

/-- The `for pg in pgl: if tde4.getPGroupType(pg)=="CAMERA": campg = pg`
loop of `_export_mel` (`exportMel.py`, lines 457-460), with `acc` the
running value of `campg`. -/
def campgFold (pGroupType : String → String) :
    List String → Option String → Option String
  | [], acc => acc
  | pg :: rest, acc =>
    campgFold pGroupType rest
      (if pGroupType pg == "CAMERA" then some pg else acc)

/-- The `unit_scales` dictionary of `_export_mel` (`exportMel.py`,
line 475), with the float literals as the rationals they denote.  The
lookup key `1.0` in the source equals the integer key `1` under
Python's numeric equality. -/
def unit_scales : List (Nat × Rat) :=
  [(1, 1), (2, 1 / 100), (3, 10), (4, 393701 / 1000000),
   (5, 328084 / 10000000), (6, 109361 / 10000000)]

/-- `_export_mel` (`exportMel.py`, lines 450-500), returning the
argument tuple passed to `_maya_export_mel_file`.  The
`camera_selection` and `model_selection` values are the hard-coded
literals `5` and `1`; the `if camera_selection == ...` chain is
translated as written (the list-building loops of branches 3 and 4 as
filters). -/
def exportMelArgs (env : ExportEnv) (path : String) : MelExportArgs :=
  let campg := campgFold env.pGroupType env.pGroupList Option.none
  let cam := env.currentCamera
  let offset := env.cameraFrameOffset cam
  let startFrame : Rat := (offset : Rat)
  let camera_selection : Nat := 5
  let model_selection : Nat := 1
  let overscan_w_pc : Rat := 1
  let overscan_h_pc : Rat := 1
  let export_material : Nat := 0
  let camera_list := env.cameraList
  let unit_scale_factor : Rat := (unit_scales.lookup 1).getD 0
  let camera_list :=
    if camera_selection == 1 then [env.currentCamera]
    else if camera_selection == 2 then env.selectedCameraList
    else if camera_selection == 3 then
      env.cameraList.filter (fun c => env.cameraType c == "SEQUENCE")
    else if camera_selection == 4 then
      env.cameraList.filter (fun c => env.cameraType c == "REF_FRAME")
    else camera_list
  let frame0 := startFrame - 1
  let hide_ref : Nat := 0
  { path := path, campg := campg, cameraList := camera_list,
    modelSelection := model_selection, overscanWPc := overscan_w_pc,
    overscanHPc := overscan_h_pc, exportMaterial := export_material,
    unitScaleFactor := unit_scale_factor, frame0 := frame0,
    hideRef := hide_ref }

end Publish

/-! ## Theorems settling the claims -/

/-- Once `dirty` is `0`, the prompt loop exits immediately with no
further calls. -/
theorem promptLoop_zero (fp : String) (ans : List SceneOp.Answer) :
    SceneOp.promptLoop fp 0 ans = some ([], Option.none) := by
  cases ans <;> rfl

/-- A dirty project prompts once; a Yes answer saves and exits the
loop. -/
theorem promptLoop_one_yes (fp : String) (rest : List SceneOp.Answer) :
    SceneOp.promptLoop fp 1 (SceneOp.Answer.yes :: rest)
      = some ([SceneOp.Eff.saveProject fp], Option.none) := by
  rw [SceneOp.promptLoop, promptLoop_zero]; rfl

/-- A dirty project prompts once; a No answer breaks out of the loop
with no call. -/
theorem promptLoop_one_no (fp : String) (rest : List SceneOp.Answer) :
    SceneOp.promptLoop fp 1 (SceneOp.Answer.no :: rest)
      = some ([], Option.none) := by
  rw [SceneOp.promptLoop]; rfl

/-- A dirty project prompts once; a Cancel answer returns `False` from
`execute`. -/
theorem promptLoop_one_cancel (fp : String) (rest : List SceneOp.Answer) :
    SceneOp.promptLoop fp 1 (SceneOp.Answer.cancel :: rest)
      = some ([], some (SceneOp.PyVal.bool false)) := by
  rw [SceneOp.promptLoop]; rfl

/-- C1: for every invocation of `SceneOperation.execute` with
`operation == "open"`, the hook returns `False` exactly when the
project is dirty (`tde4.isProjectUpToDate()` false) and the user
answers Cancel (and then makes no host call); in every other case
`tde4.loadProject(file_path)` is called exactly once — as the sole
call — preceded by `tde4.saveProject(file_path)` precisely when the
project was dirty and the user answered Yes. -/
theorem C1_open_delegates_to_load (upToDate : Bool) (a : SceneOp.Answer)
    (rest : List SceneOp.Answer) (dn : String → String)
    (ex : String → Bool) (fp : String) :
    ∃ calls ret,
      SceneOp.execute ⟨upToDate, a :: rest, dn, ex⟩ "open" fp
        = some (calls, ret) ∧
      ((ret = SceneOp.PyVal.bool false ∧ calls = []) ↔
        (upToDate = false ∧ a = SceneOp.Answer.cancel)) ∧
      (¬ (upToDate = false ∧ a = SceneOp.Answer.cancel) →
        ret = SceneOp.PyVal.noneVal ∧
        calls = (if upToDate = false ∧ a = SceneOp.Answer.yes
                 then [SceneOp.Eff.saveProject fp] else [])
                ++ [SceneOp.Eff.loadProject fp]) := by
  cases upToDate with
  | true =>
    refine ⟨[SceneOp.Eff.loadProject fp], SceneOp.PyVal.noneVal, ?_,
      by simp, by intro h; simp⟩
    simp [SceneOp.execute, promptLoop_zero]
  | false =>
    cases a with
    | yes =>
      refine ⟨[SceneOp.Eff.saveProject fp, SceneOp.Eff.loadProject fp],
        SceneOp.PyVal.noneVal, ?_, by simp, by intro h; simp⟩
      simp [SceneOp.execute, promptLoop_one_yes]
    | no =>
      refine ⟨[SceneOp.Eff.loadProject fp], SceneOp.PyVal.noneVal, ?_,
        by simp, by intro h; simp⟩
      simp [SceneOp.execute, promptLoop_one_no]
    | cancel =>
      refine ⟨[], SceneOp.PyVal.bool false, ?_, by simp,
        fun h => absurd ⟨rfl, rfl⟩ h⟩
      simp [SceneOp.execute, promptLoop_one_cancel]

/-- C5: the `"save"` and `"save_as"` branches of
`SceneOperation.execute` are behaviorally identical: each calls
`os.makedirs` on the parent directory of `file_path` exactly when that
directory does not exist, then calls `tde4.saveProject(file_path)`
exactly once, and each returns `None`. -/
theorem C5_save_save_as_identical (upToDate : Bool)
    (ans : List SceneOp.Answer) (dn : String → String)
    (ex : String → Bool) (fp : String) :
    SceneOp.execute ⟨upToDate, ans, dn, ex⟩ "save" fp
      = SceneOp.execute ⟨upToDate, ans, dn, ex⟩ "save_as" fp ∧
    SceneOp.execute ⟨upToDate, ans, dn, ex⟩ "save" fp
      = some ((if ex (dn fp) then [] else [SceneOp.Eff.makedirs (dn fp)])
              ++ [SceneOp.Eff.saveProject fp], SceneOp.PyVal.noneVal) :=
  ⟨rfl, rfl⟩

/-- C3 counterexample: a DEBUG-level record (`levelno = 10`) dispatched
while the global debug flag is off is not printed at all, so the claim
that every record is emitted regardless of level and debug flag is
false. -/
theorem C3_counterexample_debug_dropped :
    Engine.emitLogMessage false (fun _ => "a message") "2024-01-01"
      ⟨10⟩ = Option.none := rfl

/-- C3 (amended): `_emit_log_message` prints a record exactly when its
level is at least `logging.INFO` or the global debug flag is set; a
printed record is formatted with the supplied handler's formatter,
prefixed by the timestamp. -/
theorem C3_amended_emit_filtered (globalDebug : Bool)
    (fmt : Engine.LogRecord → String) (now : String)
    (record : Engine.LogRecord) :
    Engine.emitLogMessage globalDebug fmt now record
      = if Engine.loggingINFO ≤ record.levelno ∨ globalDebug = true
        then some (now ++ " " ++ fmt record)
        else Option.none := by
  unfold Engine.emitLogMessage
  rcases le_or_lt Engine.loggingINFO record.levelno with h | h
  · cases globalDebug <;> simp [h, not_lt.2 h]
  · cases globalDebug <;> simp [h, not_le.2 h]

/-- C4: with the `TK_3DE4_MENU_DIR` environment variable set to `p`,
`destroy_engine` removes exactly the directory `p` when `p` is an
existing directory and removes nothing otherwise; it performs no other
action. -/
theorem C4_destroy_removes_menu_dir (env : String → Option String)
    (isDir : String → Bool) (p : String)
    (h : env "TK_3DE4_MENU_DIR" = some p) :
    Engine.destroyEngine env isDir
      = Engine.CleanupResult.ok (if isDir p then [p] else []) := by
  unfold Engine.destroyEngine Engine.cleanupFolders
  rw [h]
  cases hd : isDir p <;> simp [hd]

/-- Witness for C4 at a concrete environment and filesystem. -/
theorem C4_destroy_removes_menu_dir_witness :
    Engine.destroyEngine
      (fun k => if k == "TK_3DE4_MENU_DIR" then some "/tmp/tk_menu"
                else Option.none)
      (fun _ => true)
      = Engine.CleanupResult.ok ["/tmp/tk_menu"] := by
  have h := C4_destroy_removes_menu_dir
    (fun k => if k == "TK_3DE4_MENU_DIR" then some "/tmp/tk_menu"
              else Option.none)
    (fun _ => true) "/tmp/tk_menu" rfl
  simpa using h

/-- C10: when `TK_3DE4_MENU_DIR` is not in the environment,
`destroy_engine` raises `KeyError` from the unconditional
`os.environ[...]` lookup; the result does not depend on the filesystem
(no check or deletion happens). -/
theorem C10_missing_env_keyerror (env : String → Option String)
    (isDir : String → Bool) (h : env "TK_3DE4_MENU_DIR" = Option.none) :
    Engine.destroyEngine env isDir
        = Engine.CleanupResult.keyError "TK_3DE4_MENU_DIR" ∧
      ∀ isDir2 : String → Bool,
        Engine.destroyEngine env isDir = Engine.destroyEngine env isDir2 := by
  unfold Engine.destroyEngine Engine.cleanupFolders
  rw [h]
  exact ⟨rfl, fun _ => rfl⟩

/-- Witness for C10 with an empty environment. -/
theorem C10_missing_env_keyerror_witness :
    Engine.destroyEngine (fun _ => Option.none) (fun _ => true)
      = Engine.CleanupResult.keyError "TK_3DE4_MENU_DIR" :=
  (C10_missing_env_keyerror (fun _ => Option.none) (fun _ => true) rfl).1

/-- C7: `host_info` is total over every outcome of the host version
query: when the import or the call raises, or the returned string does
not match the version pattern, the result is the fallback dictionary
`{"name": "3DEqualizer4", "version": "unknown"}`; when the pattern
matches, the two captured groups are returned.  In every case the
result is a `HostInfo`, i.e. carries both a name and a version. -/
theorem C7_host_info_total (query : Except Engine.PyExn String) :
    (∀ e, query = Except.error e →
      Engine.host_info query = ⟨"3DEqualizer4", "unknown"⟩) ∧
    (∀ s, query = Except.ok s → Engine.matchVersion s = Option.none →
      Engine.host_info query = ⟨"3DEqualizer4", "unknown"⟩) ∧
    (∀ s n v, query = Except.ok s →
      Engine.matchVersion s = some (n, v) →
      Engine.host_info query = ⟨n, v⟩) := by
  refine ⟨?_, ?_, ?_⟩
  · intro e he
    subst he
    rfl
  · intro s hs hm
    subst hs
    simp [Engine.host_info, Engine.hostInfoTryBody, hm]
  · intro s n v hs hm
    subst hs
    simp [Engine.host_info, Engine.hostInfoTryBody, hm]

/-- Witness for C7: a raising query falls back, a well-formed version
string is parsed into its two groups. -/
theorem C7_host_info_total_witness :
    Engine.host_info (Except.error Engine.PyExn.apiError)
        = ⟨"3DEqualizer4", "unknown"⟩ ∧
      Engine.host_info (Except.ok "3DEqualizer4 Release 7.1v2")
        = ⟨"3DEqualizer4", "Release 7.1v2"⟩ :=
  ⟨(C7_host_info_total _).1 Engine.PyExn.apiError rfl,
   (C7_host_info_total _).2.2 "3DEqualizer4 Release 7.1v2"
     "3DEqualizer4" "Release 7.1v2" rfl (by decide)⟩

/-- C6: `accept` does no filtering of its own: for every settings and
item it returns the dictionary with `accepted`, `checked` and
`visible` all `True`; the only filtering comes from the platform's
glob match against `item_filters = ["3de.session", "file.mel"]`. -/
theorem C6_accept_accepts_everything (env : Publish.AcceptEnv)
    (item : Publish.ItemProps) :
    (Publish.accept env item).2
        = { accepted := true, checked := true, visible := true } ∧
      Publish.item_filters = ["3de.session", "file.mel"] :=
  ⟨rfl, rfl⟩

/-- C2: `publish` re-raises any exception from the `_export_mel` call
as `Exception("Unable to export mel script")`; `finalize` re-raises
any exception from the copy step as the same message and any exception
from the registration step as
`Exception("Unable to publish mel script")`; every exception raised by
the other steps propagates unchanged (no other translation, retry or
recovery). -/
theorem C2_publish_finalize_error_translation (po : Publish.PublishOracle)
    (fo : Publish.FinalizeOracle) (item : Publish.ItemProps) :
    (∀ path e, po.sessionPathNorm = Except.ok path →
      po.saveSession path = Except.ok () →
      po.exportMel path = Except.error e →
      Publish.publish po item
        = Except.error (Publish.PubErr.generic "Unable to export mel script")) ∧
    (∀ e, po.sessionPathNorm = Except.error e →
      Publish.publish po item = Except.error e) ∧
    (∀ path e, po.sessionPathNorm = Except.ok path →
      po.saveSession path = Except.error e →
      Publish.publish po item = Except.error e) ∧
    (∀ path nm ver mpath e, fo.sessionPathNorm = Except.ok path →
      fo.publishName = Except.ok nm → fo.publishVersion = Except.ok ver →
      fo.specificTemplatePath = Except.ok mpath →
      fo.copyToMelPath path mpath = Except.error e →
      Publish.finalize fo item
        = Except.error (Publish.PubErr.generic "Unable to export mel script")) ∧
    (∀ path nm ver mpath e, fo.sessionPathNorm = Except.ok path →
      fo.publishName = Except.ok nm → fo.publishVersion = Except.ok ver →
      fo.specificTemplatePath = Except.ok mpath →
      fo.copyToMelPath path mpath = Except.ok () →
      fo.registerPublish = Except.error e →
      Publish.finalize fo item
        = Except.error (Publish.PubErr.generic "Unable to publish mel script")) ∧
    (∀ e, fo.sessionPathNorm = Except.error e →
      Publish.finalize fo item = Except.error e) ∧
    (∀ path e, fo.sessionPathNorm = Except.ok path →
      fo.publishName = Except.error e →
      Publish.finalize fo item = Except.error e) ∧
    (∀ path nm e, fo.sessionPathNorm = Except.ok path →
      fo.publishName = Except.ok nm → fo.publishVersion = Except.error e →
      Publish.finalize fo item = Except.error e) ∧
    (∀ path nm ver e, fo.sessionPathNorm = Except.ok path →
      fo.publishName = Except.ok nm → fo.publishVersion = Except.ok ver →
      fo.specificTemplatePath = Except.error e →
      Publish.finalize fo item = Except.error e) := by
  refine ⟨?_, ?_, ?_, ?_, ?_, ?_, ?_, ?_, ?_⟩ <;>
    intros <;>
      simp_all [Publish.publish, Publish.finalize]

/-- Witness for C2: with a session path of `/w/shot.3de`, a succeeding
folder-creation step and a raising exporter, `publish` fails with the
generic export message. -/
theorem C2_publish_finalize_error_translation_witness :
    Publish.publish
      ⟨Except.ok "/w/shot.3de", fun _ => Except.ok (),
       fun _ => Except.error (Publish.PubErr.hostError "disk full")⟩
      ⟨Option.none, Option.none, Option.none, true⟩
      = Except.error (Publish.PubErr.generic "Unable to export mel script") :=
  (C2_publish_finalize_error_translation
    ⟨Except.ok "/w/shot.3de", fun _ => Except.ok (),
     fun _ => Except.error (Publish.PubErr.hostError "disk full")⟩
    ⟨Except.ok "/w/shot.3de", Except.ok "shot", Except.ok 1,
     Except.ok "/pub", fun _ _ => Except.ok (), Except.ok ()⟩
    ⟨Option.none, Option.none, Option.none, true⟩).1
    "/w/shot.3de" (Publish.PubErr.hostError "disk full") rfl rfl rfl

/-- C8: `validate` is atomic on its failure paths: with no session
path it raises the not-saved error with the item untouched; when the
next incremental version of the work file exists on disk it raises
(or, in the model, diverges in the bump loop) with the item untouched;
only when neither failure occurs does it write
`item.properties["publish_template"]` (when the template lookup finds
one) and `item.properties["path"]` and invoke the base-class
validation on the updated item. -/
theorem C8_validate_atomic_on_failure (o : Publish.ValidateOracle)
    (fuel : Nat) (item : Publish.ItemProps) :
    (Publish.pyFalsy o.sessionPath = true →
      Publish.validate o fuel item
        = some (item, Except.error Publish.ValErr.notSaved)) ∧
    (∀ nvp v, Publish.pyFalsy o.sessionPath = false →
      o.nextVersionInfo (o.normalize (o.sessionPath.getD ""))
        = (some nvp, v) →
      nvp.isEmpty = false → o.pathExists nvp = true →
      Publish.validate o fuel item = Option.none ∨
        ∃ e, Publish.validate o fuel item = some (item, Except.error e)) ∧
    (Publish.pyFalsy o.sessionPath = false →
      (! Publish.pyFalsy
          (o.nextVersionInfo (o.normalize (o.sessionPath.getD ""))).1
        && o.pathExists
          ((o.nextVersionInfo (o.normalize (o.sessionPath.getD ""))).1.getD ""))
        = false →
      ∃ item2 : Publish.ItemProps,
        Publish.validate o fuel item
            = some (item2, Except.ok (o.baseValidate item2)) ∧
          item2.path = some (o.normalize (o.sessionPath.getD "")) ∧
          item2.publish_template
            = (match o.getTemplateByName o.publishTemplateValue with
               | some t => some t
               | Option.none => item.publish_template) ∧
          item2.publish_dependencies = item.publish_dependencies ∧
          item2.context_change_allowed = item.context_change_allowed) := by
  refine ⟨?_, ?_, ?_⟩
  · intro h
    simp [Publish.validate, h]
  · intro nvp v h hnext hne hex
    unfold Publish.validate
    simp only [h, Bool.false_eq_true, if_false, hnext]
    simp only [Publish.pyFalsy, hne, Option.getD_some, hex]
    simp only [Bool.not_false, Bool.true_and, if_true]
    rcases hb : Publish.bumpLoop o.pathExists o.nextVersionInfo fuel nvp v
      with _ | r
    · exact Or.inl rfl
    · rcases r with e | v2
      · exact Or.inr ⟨Publish.ValErr.typeError, rfl⟩
      · exact Or.inr ⟨Publish.ValErr.nextVersionExists v2, rfl⟩
  · intro h hcond
    unfold Publish.validate
    simp only [h, Bool.false_eq_true, if_false, hcond]
    cases hg : o.getTemplateByName o.publishTemplateValue with
    | none =>
      refine ⟨{ item with path := some (o.normalize (o.sessionPath.getD "")) },
        ?_, rfl, ?_, rfl, rfl⟩
      · simp [hg]
      · simp [hg]
    | some t =>
      refine ⟨⟨some t, some (o.normalize (o.sessionPath.getD "")), item.publish_dependencies, item.context_change_allowed⟩, ?_, rfl, ?_, rfl, rfl⟩
      · simp [hg]
      · simp [hg]

/-- Witness for C8: an unsaved session (no project path) makes
`validate` fail with the not-saved error and leave the item as it
was. -/
theorem C8_validate_atomic_on_failure_witness :
    Publish.validate
      ⟨Option.none, id, fun _ _ => true, fun p => (some (p ++ "1"), 1),
       fun _ => false, Option.none, fun _ => Option.none, fun _ => true⟩
      3 ⟨Option.none, Option.none, Option.none, true⟩
      = some (⟨Option.none, Option.none, Option.none, true⟩,
              Except.error Publish.ValErr.notSaved) :=
  (C8_validate_atomic_on_failure
    ⟨Option.none, id, fun _ _ => true, fun p => (some (p ++ "1"), 1),
     fun _ => false, Option.none, fun _ => Option.none, fun _ => true⟩
    3 ⟨Option.none, Option.none, Option.none, true⟩).1 rfl

/-- The `campg` loop of `_export_mel` keeps the last point group whose
type is `"CAMERA"`: with accumulator `acc` it returns the last element
of the CAMERA-typed filter, falling back to `acc`. -/
theorem campgFold_last (pGroupType : String → String) (l : List String)
    (acc : Option String) :
    Publish.campgFold pGroupType l acc
      = ((l.filter (fun pg => pGroupType pg == "CAMERA")).getLast?).elim
          acc some := by
  induction l generalizing acc with
  | nil => rfl
  | cons pg rest ih =>
    rw [Publish.campgFold, ih]
    by_cases hpg : (pGroupType pg == "CAMERA") = true
    · rw [if_pos hpg]
      simp only [List.filter_cons, hpg, if_true]
      rcases hf : rest.filter (fun q => pGroupType q == "CAMERA")
        with _ | ⟨y, ys⟩
      · simp [hf]
      · obtain ⟨z, hz⟩ := Option.isSome_iff_exists.1
          (List.getLast?_isSome.2 (List.cons_ne_nil y ys))
        simp [hf, hz, List.getLast?_cons_cons]
    · rw [if_neg hpg]
      simp [List.filter_cons, hpg]

/-- Starting from `campg = None` as in the source, the loop yields
exactly the last CAMERA-typed point group, or `None` when there is
none. -/
theorem campgFold_none (pGroupType : String → String) (l : List String) :
    Publish.campgFold pGroupType l Option.none
      = (l.filter (fun pg => pGroupType pg == "CAMERA")).getLast? := by
  rw [campgFold_last]
  cases (l.filter (fun pg => pGroupType pg == "CAMERA")).getLast? <;> rfl

/-- C9: `_export_mel` always calls the exporter with fixed parameters:
start frame = current camera's frame offset minus one, the full host
camera list (the hard-coded `camera_selection = 5` disables every
filtering branch), model selection 1, overscan and unit scale factors
1.0, materials and reference-frame hiding off, and as camera point
group the last point group of type `"CAMERA"` (`None` when there is
none). -/
theorem C9_export_mel_fixed_parameters (env : Publish.ExportEnv)
    (path : String) :
    Publish.exportMelArgs env path
      = { path := path,
          campg := (env.pGroupList.filter
            (fun pg => env.pGroupType pg == "CAMERA")).getLast?,
          cameraList := env.cameraList,
          modelSelection := 1,
          overscanWPc := 1,
          overscanHPc := 1,
          exportMaterial := 0,
          unitScaleFactor := 1,
          frame0 := (env.cameraFrameOffset env.currentCamera : Rat) - 1,
          hideRef := 0 } := by
  simp only [Publish.exportMelArgs, campgFold_none, Publish.unit_scales]
  norm_num
  decide
